import Mathlib

/-!
# Verification of the SoftHSMv2 token index (`OSToken.cpp`)

A shallow embedding of `src/trunk/src/lib/object_store/OSToken.cpp`.

The external collaborators (the on-disk `ObjectFile` attribute container,
the `Directory` accessor, the `IPCSignal` change signal and the mutex) are
not part of the source under verification; they are modelled at their
interface boundary.  Every nondeterministic outcome of an external call
(whether a directory refresh succeeds, which files a listing returns,
whether the change signal was triggered, whether an attribute write
persists, whether an object file opens as a valid container) is supplied
explicitly through environment records, so each theorem quantifies over
all external behaviours.  Intra-process mutex acquisition is modelled by
sequential execution of the state-transforming functions.
-/

/-- Opaque PIN / label / serial blobs (`ByteString` in the C++ source). -/
abbrev ByteString := List Nat

/-- A stored attribute value (`OSAttribute`): either a byte string or a
`CK_ULONG`, modelled as an unbounded natural (flag values are small). -/
inductive OSAttribute where
  | bytes (b : ByteString)
  | ulong (v : Nat)
deriving DecidableEq

/-- `OSAttribute::getByteStringValue` (returns the stored byte string;
the value for a non-bytes attribute is unspecified, modelled as `[]`). -/
def OSAttribute.getByteStringValue : OSAttribute → ByteString
  | .bytes b => b
  | .ulong _ => []

/-- `OSAttribute::getUnsignedLongValue` (unspecified for non-ulong,
modelled as `0`). -/
def OSAttribute.getUnsignedLongValue : OSAttribute → Nat
  | .bytes _ => 0
  | .ulong v => v

/-- Attribute identifiers. Modelled from the spec: the numeric values come
from `OSAttributes.h`, which is not under `src/`; only their distinctness
matters to the code under verification. -/
def CKA_OS_TOKENLABEL : Nat := 0
def CKA_OS_TOKENSERIAL : Nat := 1
def CKA_OS_TOKENFLAGS : Nat := 2
def CKA_OS_SOPIN : Nat := 3
def CKA_OS_USERPIN : Nat := 4

/-- PKCS#11 token flag bits. Modelled from the spec: the numeric values
come from `cryptoki.h`, which is not under `src/`; they are the standard
PKCS#11 values. -/
def CKF_RNG : Nat := 0x00000001
def CKF_LOGIN_REQUIRED : Nat := 0x00000004
def CKF_USER_PIN_INITIALIZED : Nat := 0x00000008
def CKF_RESTORE_KEY_NOT_NEEDED : Nat := 0x00000020
def CKF_TOKEN_INITIALIZED : Nat := 0x00000400
def CKF_SO_PIN_LOCKED : Nat := 0x00400000
def CKF_SO_PIN_TO_BE_CHANGED : Nat := 0x00800000

/-- The in-memory attribute map of one attribute container, as an
association list from attribute id to value (latest write first). -/
abbrev AttrMap := List (Nat × OSAttribute)

/-- Look an attribute up (`ObjectFile::getAttribute`, `NULL` ↦ `none`). -/
def AttrMap.getAttr (m : AttrMap) (id : Nat) : Option OSAttribute :=
  match m.find? (fun p => p.1 == id) with
  | some p => some p.2
  | none => none

/-- Store an attribute (in-memory effect of a successful
`ObjectFile::setAttribute`). -/
def AttrMap.setAttr (m : AttrMap) (id : Nat) (v : OSAttribute) : AttrMap :=
  (id, v) :: m.filter (fun p => p.1 != id)

/-- `ObjectFile`: one attribute container backed by one file.  `filename`
is the bare file name (`ObjectFile::getFilename`), `valid` is
`ObjectFile::isValid`, `attrs` its attribute map, and `ptrId` the identity
of the heap allocation (distinct `new ObjectFile` calls give distinct
`ptrId`s, modelling pointer identity in the C++ `std::set<ObjectFile*>`). -/
structure ObjectFile where
  filename : String
  valid : Bool
  attrs : AttrMap
  ptrId : Nat
deriving DecidableEq

/-- `ObjectFile::attributeExists`. -/
def ObjectFile.attributeExists (o : ObjectFile) (id : Nat) : Bool :=
  (o.attrs.getAttr id).isSome

/-- `ObjectFile::setAttribute`: the external write either persists
(`writeOk = true`, attribute stored, result `true`) or fails
(`writeOk = false`, store unchanged, result `false`).  `writeOk` is the
oracle for the external file-system outcome. -/
def ObjectFile.setAttribute (o : ObjectFile) (id : Nat) (v : OSAttribute)
    (writeOk : Bool) : ObjectFile × Bool :=
  if writeOk then ({ o with attrs := o.attrs.setAttr id v }, true)
  else (o, false)

/-- The name filter of `OSToken::index` (line 275):
`(i->size() > 7) && (!(i->substr(i->size() - 7).compare(".object")))`. -/
def isObjectFileName (s : String) : Bool :=
  decide (7 < s.length) && (s.drop (s.length - 7) == ".object")

/-- `newSet` of `OSToken::index`: the directory listing filtered down to
object-file names and collected into a set (`std::set` deduplicates;
`dedup` keeps one occurrence of each name). -/
def newFileSet (listing : List String) : List String :=
  (listing.filter isObjectFileName).dedup

/-- Environment of one `OSToken::index` call: the behaviour of the
external directory, signal and object files at that moment.
`refreshOk` is the result of `tokenDir->refresh()`, `listing` the
subsequent `tokenDir->getFiles()`, `wasTriggered` the result of
`sync->wasTriggered()`, and `invalidFiles` the names whose backing
attribute container fails to open/parse (`new ObjectFile(...)` yields an
invalid container for them). -/
structure IndexEnv where
  refreshOk : Bool
  listing : List String
  wasTriggered : Bool
  invalidFiles : List String
deriving DecidableEq

/-- The `OSToken` state: `tokenObject` is the metadata attribute
container, `currentFiles` the member the spec calls `knownFileNames`,
`objects` the member the spec calls `liveObjects`, `allObjects` the
member the spec calls `allEverCreatedObjects`, `nextPtr` the next fresh
heap identity, and `syncOk` / `mutexOk` record whether `IPCSignal::create`
and `MutexFactory::getMutex` returned non-`NULL`. -/
structure OSToken where
  tokenPath : String
  tokenObject : ObjectFile
  syncOk : Bool
  mutexOk : Bool
  valid : Bool
  currentFiles : List String
  objects : List ObjectFile
  allObjects : List ObjectFile
  nextPtr : Nat
deriving DecidableEq

/-- The handle-creation loop of `OSToken::index` (lines 314–322): for each
added file name, `new ObjectFile(tokenPath + "/" + name)` with a fresh
heap identity; the container opens invalid exactly for names in
`invalidFiles`.  Returns the new handles in order and the next identity. -/
def mkHandles (invalidFiles : List String) (firstPtr : Nat) :
    List String → List ObjectFile × Nat
  | [] => ([], firstPtr)
  | n :: rest =>
      let h : ObjectFile :=
        { filename := n, valid := !(decide (n ∈ invalidFiles)), attrs := [],
          ptrId := firstPtr }
      let r := mkHandles invalidFiles (firstPtr + 1) rest
      (h :: r.1, r.2)

/-- `OSToken::index` (lines 251–340), faithful to the source: the early
return for non-first-time calls that are invalid or unsignalled, the
integrity check that is the only place setting `valid` to `false`, the
suffix filter, the added/removed diff against `currentFiles`, handle
creation and insertion into `objects` and `allObjects`, and the removal
rebuild of `objects`.  Note: the source never assigns `currentFiles =
newSet`; this model reproduces that. -/
def OSToken.index (tok : OSToken) (env : IndexEnv) (isFirstTime : Bool) :
    OSToken × Bool :=
  if !isFirstTime && (!tok.valid || !env.wasTriggered) then
    (tok, true)
  else if !env.refreshOk || !tok.tokenObject.valid then
    ({ tok with valid := false }, false)
  else
    let newSet := newFileSet env.listing
    let addedFiles :=
      if isFirstTime then newSet
      else newSet.filter (fun n => !(decide (n ∈ tok.currentFiles)))
    let removedFiles :=
      if isFirstTime then []
      else tok.currentFiles.filter (fun n => !(decide (n ∈ newSet)))
    let newHandles := mkHandles env.invalidFiles tok.nextPtr addedFiles
    let objects1 := tok.objects ++ newHandles.1
    let allObjects1 := tok.allObjects ++ newHandles.1
    let objects2 := objects1.filter (fun o => !(decide (o.filename ∈ removedFiles)))
    let tok2 : OSToken :=
      { tok with objects := objects2, allObjects := allObjects1,
                 nextPtr := newHandles.2 }
    (tok2, true)

/-- `OSToken::getObjects` (lines 233–242): run `index()` (not first time),
then return a snapshot of `objects` under the lock. -/
def OSToken.getObjects (tok : OSToken) (env : IndexEnv) :
    OSToken × List ObjectFile :=
  let (tok1, _) := tok.index env false
  (tok1, tok1.objects)

/-- `OSToken::isValid`. -/
def OSToken.isValid (tok : OSToken) : Bool :=
  tok.valid

/-- Environment of the `OSToken` constructor: whether
`Directory(tokenPath)` opened valid, the metadata container's state
(`ObjectFile(tokenPath + "/tokenObject")`), whether `IPCSignal::create`
and `MutexFactory::getMutex` returned non-`NULL`, and the environment of
the initial `index(true)` call. -/
structure ConstructEnv where
  dirValid : Bool
  tokenObjectValid : Bool
  tokenObjectAttrs : AttrMap
  syncOk : Bool
  mutexOk : Bool
  indexEnv : IndexEnv
deriving DecidableEq

/-- The `OSToken` constructor (lines 54–64): open all four resources,
compute `valid` as their conjunction, then always run `index(true)`. -/
def OSToken.construct (env : ConstructEnv) (path : String) : OSToken :=
  let tok0 : OSToken :=
    { tokenPath := path
      tokenObject :=
        { filename := "tokenObject", valid := env.tokenObjectValid,
          attrs := env.tokenObjectAttrs, ptrId := 0 }
      syncOk := env.syncOk
      mutexOk := env.mutexOk
      valid := env.syncOk && env.mutexOk && env.dirValid && env.tokenObjectValid
      currentFiles := []
      objects := []
      allObjects := []
      nextPtr := 1 }
  (tok0.index env.indexEnv true).1

/-- `OSToken::setSOPIN` (lines 137–142).  The C++ function body is
`tokenObject->setAttribute(CKA_OS_SOPIN, soPIN);` with **no return
statement**: control falls off the end of a non-void function, so the
boolean result is indeterminate.  The parameter `undef` stands for that
indeterminate value, `writeOk` for the external write outcome. -/
def OSToken.setSOPIN (tok : OSToken) (soPINBlob : ByteString)
    (writeOk : Bool) (undef : Bool) : OSToken × Bool :=
  let w := tok.tokenObject.setAttribute CKA_OS_SOPIN (.bytes soPINBlob) writeOk
  ({ tok with tokenObject := w.1 }, undef)

/-- `OSToken::getSOPIN` (lines 145–164): fails when the metadata object
is invalid or the attribute is absent. -/
def OSToken.getSOPIN (tok : OSToken) : Option ByteString :=
  if !tok.tokenObject.valid then none
  else
    match tok.tokenObject.attrs.getAttr CKA_OS_SOPIN with
    | some a => some a.getByteStringValue
    | none => none

/-- `OSToken::setUserPIN` (lines 167–172): writes the attribute and
returns the write's result. -/
def OSToken.setUserPIN (tok : OSToken) (userPINBlob : ByteString)
    (writeOk : Bool) : OSToken × Bool :=
  let w := tok.tokenObject.setAttribute CKA_OS_USERPIN (.bytes userPINBlob) writeOk
  ({ tok with tokenObject := w.1 }, w.2)

/-- `OSToken::getUserPIN` (lines 175–194). -/
def OSToken.getUserPIN (tok : OSToken) : Option ByteString :=
  if !tok.tokenObject.valid then none
  else
    match tok.tokenObject.attrs.getAttr CKA_OS_USERPIN with
    | some a => some a.getByteStringValue
    | none => none

/-- `OSToken::getTokenFlags` (lines 197–222): read the stored flags, then
OR in `CKF_USER_PIN_INITIALIZED` when the user-PIN attribute exists. -/
def OSToken.getTokenFlags (tok : OSToken) : Option Nat :=
  if !tok.tokenObject.valid then none
  else
    match tok.tokenObject.attrs.getAttr CKA_OS_TOKENFLAGS with
    | some a =>
        let flags := a.getUnsignedLongValue
        if tok.tokenObject.attributeExists CKA_OS_USERPIN then
          some (flags ||| CKF_USER_PIN_INITIALIZED)
        else
          some flags
    | none => none

/-- `OSToken::setTokenFlags` (lines 225–230): writes the flags attribute
verbatim. -/
def OSToken.setTokenFlags (tok : OSToken) (flags : Nat)
    (writeOk : Bool) : OSToken × Bool :=
  let w := tok.tokenObject.setAttribute CKA_OS_TOKENFLAGS (.ulong flags) writeOk
  ({ tok with tokenObject := w.1 }, w.2)

/-! ## Concrete fixtures used by counterexamples and witnesses -/

/-- A healthy metadata attribute container with no attributes set yet. -/
def metaObjValid : ObjectFile :=
  { filename := "tokenObject", valid := true, attrs := [], ptrId := 0 }

/-- A reconciliation environment: refresh succeeds, the directory holds
one object file `a.object`, the change signal fired, every object file is
readable. -/
def envOneObject : IndexEnv :=
  { refreshOk := true, listing := ["a.object"], wasTriggered := true,
    invalidFiles := [] }

/-- A healthy token state as produced by the constructor just before its
initial `index(true)` call: all four resources obtained, empty cache. -/
def tokHealthy : OSToken :=
  { tokenPath := "/tok", tokenObject := metaObjValid, syncOk := true,
    mutexOk := true, valid := true, currentFiles := [], objects := [],
    allObjects := [], nextPtr := 1 }

/-- A token whose validity flag has been dropped. -/
def tokBroken : OSToken :=
  { tokHealthy with valid := false }

/-! ## C1 -/

/-- C1: the claim says every successful reconciliation ends by replacing
`knownFileNames` (`currentFiles`) with `newFileSet`.  The source never
assigns `currentFiles`: a successful first-time reconciliation over a
directory holding `a.object` reports success, computes
`newFileSet = ["a.object"]`, yet leaves `currentFiles` empty. -/
theorem index_never_updates_currentFiles :
    (tokHealthy.index envOneObject true).2 = true ∧
    newFileSet envOneObject.listing = ["a.object"] ∧
    (tokHealthy.index envOneObject true).1.currentFiles = [] := by
  decide

/-! ## C2 -/

/-- C2: the claim says that immediately after every successful
reconciliation, `knownFileNames` and `liveObjects` are in one-to-one
correspondence.  After a successful first-time reconciliation over
`["a.object"]` there is a live handle backed by `a.object` while
`currentFiles` is empty (an orphan handle), and after a further
signal-triggered pass `liveObjects` holds two distinct handles backed by
the same file name (a duplicate) - both direct consequences of
`currentFiles` never being assigned. -/
theorem liveObjects_currentFiles_mismatch :
    (tokHealthy.index envOneObject true).2 = true ∧
    (∃ h ∈ (tokHealthy.index envOneObject true).1.objects,
       h.filename = "a.object") ∧
    "a.object" ∉ (tokHealthy.index envOneObject true).1.currentFiles ∧
    ((((tokHealthy.index envOneObject true).1.index envOneObject false).1.objects.map
        ObjectFile.filename) = ["a.object", "a.object"]) := by
  decide

/-! ## C4 -/

/-- C4: the claim says `setSOPIN`'s boolean result reflects the underlying
attribute write's success.  The C++ function has no return statement, so
its result is the indeterminate value `undef`: for one and the same
successful write (`writeOk = true`, and the SO PIN is indeed stored) the
result is whatever `undef` happens to be - in particular `false` even
though the write succeeded. -/
theorem setSOPIN_result_indeterminate :
    (tokHealthy.setSOPIN [1, 2] true false).2 = false ∧
    (tokHealthy.setSOPIN [1, 2] true true).2 = true ∧
    (tokHealthy.setSOPIN [1, 2] true false).1.getSOPIN = some [1, 2] := by
  decide

/-! ## C3 -/

/-- The name filter accepts exactly the strings of the form
`t ++ ".object"` with `t` nonempty - equivalently, strictly more than 7
characters ending in `.object`. -/
theorem isObjectFileName_iff_append (s : String) :
    isObjectFileName s = true ↔
      ∃ t : String, 1 ≤ t.length ∧ s = t ++ ".object" := by
  constructor
  · intro h
    simp only [isObjectFileName, Bool.and_eq_true, decide_eq_true_eq,
      beq_iff_eq] at h
    obtain ⟨h7, hdrop⟩ := h
    refine ⟨s.take (s.length - 7), ?_, ?_⟩
    · have hlen : (s.take (s.length - 7)).length = min (s.length - 7) s.length := by
        show (s.take (s.length - 7)).data.length = _
        rw [String.data_take]
        exact List.length_take ..
      omega
    · rw [← hdrop]
      apply String.ext
      rw [String.data_append, String.data_take, String.data_drop]
      exact (List.take_append_drop ..).symm
  · rintro ⟨t, ht, rfl⟩
    have hlen : (t ++ ".object").length = t.length + 7 := String.length_append ..
    simp only [isObjectFileName, Bool.and_eq_true, decide_eq_true_eq,
      beq_iff_eq]
    constructor
    · omega
    · apply String.ext
      rw [String.data_drop, String.data_append, hlen]
      have h77 : t.length + 7 - 7 = t.data.length := rfl
      rw [h77]
      exact List.drop_left ..

/-- C3 counterexample: the claim says a file named exactly `.object` is
included by the filter.  The source requires `size() > 7` strictly, and
`.object` has exactly 7 characters, so it is excluded. -/
theorem dotObject_excluded_by_filter :
    (".object").length = 7 ∧ isObjectFileName ".object" = false := by
  decide

/-- C3 (amended): the filter includes a directory entry iff its name is
strictly longer than 7 characters and ends in the literal, case-sensitive
suffix `.object` (equivalently, is `t ++ ".object"` for nonempty `t`);
`x.object` is included; `.object` (exactly the suffix), `object` and
`x.objec` are excluded; names of at most 7 characters are always
excluded. -/
theorem objectFileName_suffix_rule :
    isObjectFileName "x.object" = true ∧
    isObjectFileName ".object" = false ∧
    isObjectFileName "object" = false ∧
    isObjectFileName "x.objec" = false ∧
    (∀ s : String, s.length ≤ 7 → isObjectFileName s = false) ∧
    (∀ s : String, isObjectFileName s = true ↔
       ∃ t : String, 1 ≤ t.length ∧ s = t ++ ".object") := by
  refine ⟨by decide, by decide, by decide, by decide, ?_, isObjectFileName_iff_append⟩
  intro s h
  have hd : decide (7 < s.length) = false := decide_eq_false (by omega)
  rw [isObjectFileName, hd, Bool.false_and]

/-- Witness for the amended C3 theorem: its short-name clause applied at
`"abc"` and its characterization applied at `"x.object"`. -/
theorem objectFileName_suffix_rule_witness :
    isObjectFileName "abc" = false ∧
    (∃ t : String, 1 ≤ t.length ∧ "x.object" = t ++ ".object") :=
  ⟨objectFileName_suffix_rule.2.2.2.2.1 "abc" (by decide),
   (objectFileName_suffix_rule.2.2.2.2.2 "x.object").mp (by decide)⟩

/-! ## C5 -/

/-- ORing the user-PIN bit in always leaves the user-PIN bit set. -/
theorem or_userPinBit_ne_zero (x : Nat) :
    (x ||| CKF_USER_PIN_INITIALIZED) &&& CKF_USER_PIN_INITIALIZED ≠ 0 := by
  have h : (x ||| CKF_USER_PIN_INITIALIZED) &&& CKF_USER_PIN_INITIALIZED
      = CKF_USER_PIN_INITIALIZED := by
    apply Nat.eq_of_testBit_eq
    intro i
    rw [Nat.testBit_and, Nat.testBit_or]
    cases hx : x.testBit i <;>
      cases h8 : Nat.testBit CKF_USER_PIN_INITIALIZED i <;> simp
  rw [h, CKF_USER_PIN_INITIALIZED]
  omega

/-- On a valid metadata object, `getUserPIN` succeeds exactly when the
user-PIN attribute exists. -/
theorem getUserPIN_isSome_iff (tok : OSToken)
    (hv : tok.tokenObject.valid = true) :
    tok.getUserPIN.isSome = tok.tokenObject.attributeExists CKA_OS_USERPIN := by
  unfold OSToken.getUserPIN ObjectFile.attributeExists
  rw [hv]
  cases h : tok.tokenObject.attrs.getAttr CKA_OS_USERPIN <;> simp [h]

/-- C5 counterexample: the claim says the "user PIN initialized" bit of a
successful `getTokenFlags` is set iff `getUserPIN` would succeed,
regardless of the raw flags stored via `setTokenFlags`.  Store raw flags
with the bit already set on a token that has no user PIN: `getTokenFlags`
succeeds with the bit set while `getUserPIN` fails - the code only ORs
the bit in, it never clears it. -/
theorem userPinBit_drifts_from_stored_flags :
    ((tokHealthy.setTokenFlags CKF_USER_PIN_INITIALIZED true).1.getTokenFlags
       = some CKF_USER_PIN_INITIALIZED) ∧
    CKF_USER_PIN_INITIALIZED &&& CKF_USER_PIN_INITIALIZED ≠ 0 ∧
    (tokHealthy.setTokenFlags CKF_USER_PIN_INITIALIZED true).1.getUserPIN
       = none := by
  decide

/-- C5 (amended): whenever `getTokenFlags` succeeds, the "user PIN
initialized" bit is set if the user-PIN attribute exists (so a successful
`getUserPIN` always implies the bit); conversely, when the bit is set,
either the user-PIN attribute exists or the raw stored flags value
already had the bit set (the code never clears a stored bit). -/
theorem getTokenFlags_userPinBit (tok : OSToken) (fl : Nat)
    (h : tok.getTokenFlags = some fl) :
    (tok.getUserPIN.isSome = true → fl &&& CKF_USER_PIN_INITIALIZED ≠ 0) ∧
    (fl &&& CKF_USER_PIN_INITIALIZED ≠ 0 →
       tok.getUserPIN.isSome = true ∨
       ∃ a, tok.tokenObject.attrs.getAttr CKA_OS_TOKENFLAGS = some a ∧
            a.getUnsignedLongValue &&& CKF_USER_PIN_INITIALIZED ≠ 0) := by
  unfold OSToken.getTokenFlags at h
  cases hv : tok.tokenObject.valid with
  | false => rw [hv] at h; simp at h
  | true =>
    rw [hv] at h
    simp only [Bool.not_true, Bool.false_eq_true, if_false] at h
    cases hA : tok.tokenObject.attrs.getAttr CKA_OS_TOKENFLAGS with
    | none => rw [hA] at h; simp at h
    | some a =>
      rw [hA] at h
      cases hE : tok.tokenObject.attributeExists CKA_OS_USERPIN with
      | true =>
        rw [hE] at h
        simp only [if_true, Option.some.injEq] at h
        constructor
        · intro _
          rw [← h]
          exact or_userPinBit_ne_zero _
        · intro _
          left
          rw [getUserPIN_isSome_iff tok hv, hE]
      | false =>
        rw [hE] at h
        simp only [Bool.false_eq_true, if_false, Option.some.injEq] at h
        constructor
        · intro hp
          rw [getUserPIN_isSome_iff tok hv, hE] at hp
          exact absurd hp (by simp)
        · intro hbit
          right
          exact ⟨a, rfl, by rw [h]; exact hbit⟩

/-- A token whose metadata stores raw flags `0` and a user PIN. -/
def tokWithPin : OSToken :=
  { tokHealthy with
    tokenObject :=
      { metaObjValid with
        attrs := [(CKA_OS_TOKENFLAGS, OSAttribute.ulong 0),
                  (CKA_OS_USERPIN, OSAttribute.bytes [9])] } }

/-- Witness for the amended C5 theorem at a concrete token whose user PIN
is set: `getTokenFlags` returns exactly the synthesized bit. -/
theorem getTokenFlags_userPinBit_witness :
    (tokWithPin.getUserPIN.isSome = true →
       CKF_USER_PIN_INITIALIZED &&& CKF_USER_PIN_INITIALIZED ≠ 0) ∧
    (CKF_USER_PIN_INITIALIZED &&& CKF_USER_PIN_INITIALIZED ≠ 0 →
       tokWithPin.getUserPIN.isSome = true ∨
       ∃ a, tokWithPin.tokenObject.attrs.getAttr CKA_OS_TOKENFLAGS = some a ∧
            a.getUnsignedLongValue &&& CKF_USER_PIN_INITIALIZED ≠ 0) :=
  getTokenFlags_userPinBit tokWithPin CKF_USER_PIN_INITIALIZED (by decide)

/-! ## C8 -/

/-- The handles created for a list of added names are backed by exactly
those names, in order. -/
theorem mkHandles_map_filename (inv : List String) (p : Nat) :
    ∀ names : List String,
      ((mkHandles inv p names).1.map ObjectFile.filename) = names := by
  intro names
  induction names generalizing p with
  | nil => rfl
  | cons n rest ih => simp [mkHandles, ih]

/-- C8: a non-first-time reconciliation on an invalid index is a no-op
returning success - the state (including `liveObjects`, `knownFileNames`
and `valid`) is unchanged for every possible external environment (so in
particular no directory access can influence the result) - and
consequently `getObjects` on an invalid index returns the current object
set unchanged. -/
theorem invalid_index_noop (tok : OSToken) (env : IndexEnv)
    (h : tok.valid = false) :
    tok.index env false = (tok, true) ∧
    tok.getObjects env = (tok, tok.objects) := by
  have h1 : tok.index env false = (tok, true) := by
    unfold OSToken.index
    rw [h]
    simp
  exact ⟨h1, by simp [OSToken.getObjects, h1]⟩

/-- Witness for C8 at a concrete broken token. -/
theorem invalid_index_noop_witness :
    tokBroken.index envOneObject false = (tokBroken, true) ∧
    tokBroken.getObjects envOneObject = (tokBroken, tokBroken.objects) :=
  invalid_index_noop tokBroken envOneObject rfl

/-! ## C9 -/

/-- A construction environment in which all four resources are obtained
and the initial reconciliation's directory refresh succeeds. -/
def cenvHealthy : ConstructEnv :=
  { dirValid := true, tokenObjectValid := true, tokenObjectAttrs := [],
    syncOk := true, mutexOk := true, indexEnv := envOneObject }

/-- Like `cenvHealthy`, but the directory refresh inside the initial
`index(true)` call fails. -/
def cenvRefreshFails : ConstructEnv :=
  { cenvHealthy with indexEnv := { envOneObject with refreshOk := false } }

/-- C9 counterexample: the claim says the index is valid iff all four
resources were obtained.  Here all four resources are obtained, yet the
constructor's unconditional `index(true)` hits a failing directory
refresh, which sets `valid` to `false`: the "if" direction of the claim
fails. -/
theorem construct_invalid_despite_resources :
    (cenvRefreshFails.syncOk = true ∧ cenvRefreshFails.mutexOk = true ∧
     cenvRefreshFails.dirValid = true ∧
     cenvRefreshFails.tokenObjectValid = true) ∧
    (OSToken.construct cenvRefreshFails "/tok").isValid = false := by
  decide

/-- C9 (amended): after construction the index is valid iff all four
resources were obtained AND the initial reconciliation's integrity check
passed (the directory refresh succeeded; metadata validity is already
among the four).  Construction is insensitive to the change-signal state,
and when the initial reconciliation runs to completion the live object
set is exactly one handle per name of the fresh directory listing's
object files (a full first-time reconciliation). -/
theorem construct_validity (env : ConstructEnv) (path : String) :
    ((OSToken.construct env path).valid =
       (env.syncOk && env.mutexOk && env.dirValid && env.tokenObjectValid &&
        env.indexEnv.refreshOk)) ∧
    (∀ b, OSToken.construct
        { env with indexEnv := { env.indexEnv with wasTriggered := b } } path =
        OSToken.construct env path) ∧
    (env.tokenObjectValid = true → env.indexEnv.refreshOk = true →
       (OSToken.construct env path).objects.map ObjectFile.filename =
         newFileSet env.indexEnv.listing) := by
  refine ⟨?_, ?_, ?_⟩
  · cases hs : env.syncOk <;> cases hm : env.mutexOk <;> cases hd : env.dirValid <;>
      cases ht : env.tokenObjectValid <;> cases hr : env.indexEnv.refreshOk <;>
      simp [OSToken.construct, OSToken.index, hs, hm, hd, ht, hr]
  · intro b
    simp [OSToken.construct, OSToken.index]
  · intro ht hr
    simp [OSToken.construct, OSToken.index, ht, hr, mkHandles_map_filename]

/-- Witness for the amended C9 theorem at a concrete healthy
environment. -/
theorem construct_validity_witness :
    (OSToken.construct cenvHealthy "/tok").objects.map ObjectFile.filename =
      newFileSet cenvHealthy.indexEnv.listing :=
  (construct_validity cenvHealthy "/tok").2.2 rfl rfl

/-! ## C6 -/

/-- One externally invocable operation on a token index after its
construction, with the external environment/outcome each call sees. -/
inductive TokenOp where
  | reindex (env : IndexEnv)
  | getObjects (env : IndexEnv)
  | setSOPIN (pin : ByteString) (writeOk undef : Bool)
  | getSOPIN
  | setUserPIN (pin : ByteString) (writeOk : Bool)
  | getUserPIN
  | getTokenFlags
  | setTokenFlags (flags : Nat) (writeOk : Bool)
  | isValid
deriving DecidableEq

/-- The state transition of one operation (getters leave the state
unchanged; `index` is called with `isFirstTime = false`, as everywhere
outside the constructor). -/
def OSToken.step (tok : OSToken) : TokenOp → OSToken
  | .reindex env => (tok.index env false).1
  | .getObjects env => (tok.getObjects env).1
  | .setSOPIN pin w u => (tok.setSOPIN pin w u).1
  | .getSOPIN => tok
  | .setUserPIN pin w => (tok.setUserPIN pin w).1
  | .getUserPIN => tok
  | .getTokenFlags => tok
  | .setTokenFlags f w => (tok.setTokenFlags f w).1
  | .isValid => tok

/-- Run a sequence of operations. -/
def OSToken.run (tok : OSToken) : List TokenOp → OSToken
  | [] => tok
  | op :: rest => (tok.step op).run rest

/-- The reconciliation environment an operation carries, when the
operation performs a reconciliation at all. -/
def TokenOp.reconEnv : TokenOp → Option IndexEnv
  | .reindex e => some e
  | .getObjects e => some e
  | _ => none

/-- No operation resurrects a broken index: one step preserves
`valid = false`. -/
theorem step_preserves_invalid (tok : OSToken) (op : TokenOp)
    (h : tok.valid = false) : (tok.step op).valid = false := by
  cases op <;>
    simp [OSToken.step, OSToken.index, OSToken.getObjects, OSToken.setSOPIN,
      OSToken.setUserPIN, OSToken.setTokenFlags, h]

/-- No sequence of operations resurrects a broken index. -/
theorem run_preserves_invalid (tok : OSToken) (ops : List TokenOp)
    (h : tok.valid = false) : (tok.run ops).valid = false := by
  induction ops generalizing tok with
  | nil => exact h
  | cons op rest ih => exact ih _ (step_preserves_invalid tok op h)

/-- If a step drops `valid` from `true` to `false`, the operation was a
reconciliation whose integrity check ran (the signal had been triggered)
and failed: the directory refresh failed or the metadata object was
invalid. -/
theorem step_flip_only_recon (tok : OSToken) (op : TokenOp)
    (hv : tok.valid = true) (hf : (tok.step op).valid = false) :
    ∃ env, op.reconEnv = some env ∧ env.wasTriggered = true ∧
      (env.refreshOk = false ∨ tok.tokenObject.valid = false) := by
  cases op with
  | reindex e =>
    cases hw : e.wasTriggered with
    | false =>
      have hkeep : (tok.step (.reindex e)).valid = true := by
        simp [OSToken.step, OSToken.index, hv, hw]
      rw [hf] at hkeep
      exact absurd hkeep (by simp)
    | true =>
      cases hr : e.refreshOk with
      | false => exact ⟨e, rfl, hw, Or.inl hr⟩
      | true =>
        cases hm : tok.tokenObject.valid with
        | false => exact ⟨e, rfl, hw, Or.inr rfl⟩
        | true =>
          have hkeep : (tok.step (.reindex e)).valid = true := by
            simp [OSToken.step, OSToken.index, hv, hw, hr, hm]
          rw [hf] at hkeep
          exact absurd hkeep (by simp)
  | getObjects e =>
    cases hw : e.wasTriggered with
    | false =>
      have hkeep : (tok.step (.getObjects e)).valid = true := by
        simp [OSToken.step, OSToken.getObjects, OSToken.index, hv, hw]
      rw [hf] at hkeep
      exact absurd hkeep (by simp)
    | true =>
      cases hr : e.refreshOk with
      | false => exact ⟨e, rfl, hw, Or.inl hr⟩
      | true =>
        cases hm : tok.tokenObject.valid with
        | false => exact ⟨e, rfl, hw, Or.inr rfl⟩
        | true =>
          have hkeep : (tok.step (.getObjects e)).valid = true := by
            simp [OSToken.step, OSToken.getObjects, OSToken.index, hv, hw, hr, hm]
          rw [hf] at hkeep
          exact absurd hkeep (by simp)
  | setSOPIN pin w u =>
    rw [show (tok.step (.setSOPIN pin w u)).valid = tok.valid from rfl, hv] at hf
    exact absurd hf (by simp)
  | getSOPIN =>
    rw [show (tok.step .getSOPIN).valid = tok.valid from rfl, hv] at hf
    exact absurd hf (by simp)
  | setUserPIN pin w =>
    rw [show (tok.step (.setUserPIN pin w)).valid = tok.valid from rfl, hv] at hf
    exact absurd hf (by simp)
  | getUserPIN =>
    rw [show (tok.step .getUserPIN).valid = tok.valid from rfl, hv] at hf
    exact absurd hf (by simp)
  | getTokenFlags =>
    rw [show (tok.step .getTokenFlags).valid = tok.valid from rfl, hv] at hf
    exact absurd hf (by simp)
  | setTokenFlags f w =>
    rw [show (tok.step (.setTokenFlags f w)).valid = tok.valid from rfl, hv] at hf
    exact absurd hf (by simp)
  | isValid =>
    rw [show (tok.step .isValid).valid = tok.valid from rfl, hv] at hf
    exact absurd hf (by simp)

/-- C6: validity is sticky-downward.  Across any sequence of operations
(reconciliation, `getObjects`, the PIN and flag accessors), once `valid`
is false it stays false; and the only single step that drops `valid` from
true to false is a reconciliation whose integrity check (directory
refresh failure or invalid metadata object) fails. -/
theorem valid_sticky_downward :
    (∀ (tok : OSToken) (ops : List TokenOp),
        tok.valid = false → (tok.run ops).valid = false) ∧
    (∀ (tok : OSToken) (op : TokenOp),
        tok.valid = true → (tok.step op).valid = false →
        ∃ env, op.reconEnv = some env ∧ env.wasTriggered = true ∧
          (env.refreshOk = false ∨ tok.tokenObject.valid = false)) :=
  ⟨run_preserves_invalid, step_flip_only_recon⟩

/-- A reconciliation environment whose directory refresh fails. -/
def envRefreshFail : IndexEnv := { envOneObject with refreshOk := false }

/-- Witness for C6: a broken token stays broken over a concrete operation
sequence, and a concrete refresh failure is identified as the flip's
cause. -/
theorem valid_sticky_downward_witness :
    (tokBroken.run [TokenOp.getSOPIN, TokenOp.reindex envOneObject]).valid
       = false ∧
    (∃ env, (TokenOp.reindex envRefreshFail).reconEnv = some env ∧
       env.wasTriggered = true ∧
       (env.refreshOk = false ∨ tokHealthy.tokenObject.valid = false)) :=
  ⟨valid_sticky_downward.1 tokBroken _ rfl,
   valid_sticky_downward.2 tokHealthy (TokenOp.reindex envRefreshFail) rfl
     (by decide)⟩

/-! ## C7 -/

/-- The file-system state under the base directory: whether the base
directory itself is a valid directory, and the entries beneath it (paths
relative to the base directory, so the token directory appears as
`tokenDirName` and its metadata file as `tokenDirName ++ "/tokenObject"`). -/
structure FS where
  baseDirValid : Bool
  entries : List String
deriving DecidableEq

/-- Environment of one `OSToken::createToken` call: the outcomes of the
external `mkdir`, the create-mode open of the metadata container, the
three attribute writes, and the environment for the final fresh
`new OSToken(...)` construction. -/
structure CreateEnv where
  mkdirOk : Bool
  tokenObjectCreateOk : Bool
  labelWriteOk : Bool
  serialWriteOk : Bool
  flagsWriteOk : Bool
  constructEnv : ConstructEnv
deriving DecidableEq

/-- The initial flags value written by `createToken` (lines 93–99). -/
def initialTokenFlags : Nat :=
  CKF_RNG ||| CKF_LOGIN_REQUIRED ||| CKF_RESTORE_KEY_NOT_NEEDED |||
  CKF_TOKEN_INITIALIZED ||| CKF_SO_PIN_LOCKED ||| CKF_SO_PIN_TO_BE_CHANGED

/-- `OSToken::createToken` (lines 67–116): check the base directory,
`mkdir` the token directory, create the metadata container (rolling back
the directory on failure), write label/serial/flags (rolling back the
metadata file and the directory if any write fails), else construct a
fresh index over the new path.  `Directory::remove` is external; its
effect on success is removal of the named entry.  The C++ `||` chain
short-circuits the attribute writes; the model performs all three writes
on the in-memory provisioning container, which is observationally
identical because that container is discarded on every failure path and
reopened fresh on the success path. -/
def OSToken.createToken (env : CreateEnv) (fs : FS)
    (basePath tokenDirName : String) (label serial : ByteString) :
    FS × Option OSToken :=
  if !fs.baseDirValid then (fs, none)
  else if !env.mkdirOk then (fs, none)
  else
    let entries1 := fs.entries ++ [tokenDirName]
    if !env.tokenObjectCreateOk then
      ({ baseDirValid := fs.baseDirValid,
         entries := entries1.filter (fun e => e != tokenDirName) }, none)
    else
      let entries2 := entries1 ++ [tokenDirName ++ "/tokenObject"]
      let obj0 : ObjectFile :=
        { filename := "tokenObject", valid := true, attrs := [], ptrId := 0 }
      let w1 := obj0.setAttribute CKA_OS_TOKENLABEL (.bytes label) env.labelWriteOk
      let w2 := w1.1.setAttribute CKA_OS_TOKENSERIAL (.bytes serial) env.serialWriteOk
      let w3 := w2.1.setAttribute CKA_OS_TOKENFLAGS (.ulong initialTokenFlags) env.flagsWriteOk
      if !w1.2 || !w2.2 || !w3.2 then
        let rolled := (entries2.filter (fun e => e != tokenDirName ++ "/tokenObject")).filter (fun e => e != tokenDirName)
        ({ baseDirValid := fs.baseDirValid, entries := rolled }, none)
      else
        ({ baseDirValid := fs.baseDirValid, entries := entries2 },
         some (OSToken.construct env.constructEnv (basePath ++ "/" ++ tokenDirName)))

/-- C7: if any of the three initial attribute writes fails, `createToken`
returns no token, and after the rollback the base directory's entries are
exactly what they were before the call - in particular neither the token
directory nor the metadata file beneath it remains (the token directory
was freshly created, so nothing pre-existed at either name). -/
theorem createToken_rollback (env : CreateEnv) (fs : FS)
    (basePath d : String) (label serial : ByteString)
    (hb : fs.baseDirValid = true) (hm : env.mkdirOk = true)
    (hc : env.tokenObjectCreateOk = true)
    (hw : env.labelWriteOk = false ∨ env.serialWriteOk = false ∨
          env.flagsWriteOk = false)
    (hd : d ∉ fs.entries) (ht : (d ++ "/tokenObject") ∉ fs.entries) :
    (OSToken.createToken env fs basePath d label serial).2 = none ∧
    (OSToken.createToken env fs basePath d label serial).1.entries = fs.entries := by
  rcases hw with h | h | h <;>
    constructor <;>
    simp [OSToken.createToken, ObjectFile.setAttribute, hb, hm, hc, h] <;>
    exact fun e he => ⟨fun hc2 => hd (hc2 ▸ he), fun hc2 => ht (hc2 ▸ he)⟩

/-- A base directory holding one unrelated object file. -/
def fsBase : FS := { baseDirValid := true, entries := ["other.object"] }

/-- A creation environment whose flags write fails. -/
def cenvCreateFlagFail : CreateEnv :=
  { mkdirOk := true, tokenObjectCreateOk := true, labelWriteOk := true,
    serialWriteOk := true, flagsWriteOk := false, constructEnv := cenvHealthy }

/-- Witness for C7 at a concrete failing flags write. -/
theorem createToken_rollback_witness :
    (OSToken.createToken cenvCreateFlagFail fsBase "/base" "tok1" [1] [2]).2
       = none ∧
    (OSToken.createToken cenvCreateFlagFail fsBase "/base" "tok1" [1] [2]).1.entries
       = fsBase.entries :=
  createToken_rollback cenvCreateFlagFail fsBase "/base" "tok1" [1] [2] rfl rfl
    rfl (Or.inr (Or.inr rfl)) (by decide) (by decide)

/-! ## C10 -/

/-- Every added name yields a handle among the created handles, whose
backing-container validity is exactly the external open outcome - the
creation loop performs no validity check. -/
theorem mkHandles_mem (inv : List String) (names : List String) (f : String)
    (hf : f ∈ names) : ∀ p : Nat,
    ∃ h ∈ (mkHandles inv p names).1,
      h.filename = f ∧ h.valid = !(decide (f ∈ inv)) := by
  induction names with
  | nil => cases hf
  | cons n rest ih =>
    intro p
    cases List.mem_cons.mp hf with
    | inl heq =>
      subst heq
      exact ⟨_, List.mem_cons_self _ _, rfl, rfl⟩
    | inr hmem =>
      obtain ⟨h, hh, hfn, hv⟩ := ih hmem (p + 1)
      exact ⟨h, List.mem_cons_of_mem _ hh, hfn, hv⟩

/-- C10: a reconciliation that reaches the update step inserts, for each
added file, a handle into both `liveObjects` and `allEverCreatedObjects`
without checking whether its backing attribute container opened
successfully: if an added file `f` is unreadable (its container is
invalid), reconciliation still reports success and both sets contain a
handle backed by `f` whose container is invalid.  Stated for the
first-time pass (`b = true`) and for a signal-triggered pass
(`b = false`, where `f` must be newly observed). -/
theorem unreadable_object_still_indexed (tok : OSToken) (env : IndexEnv)
    (b : Bool) (f : String)
    (hv : tok.tokenObject.valid = true) (hr : env.refreshOk = true)
    (hb : b = false → tok.valid = true ∧ env.wasTriggered = true ∧
          f ∉ tok.currentFiles)
    (hf : f ∈ newFileSet env.listing) (hbad : f ∈ env.invalidFiles) :
    (tok.index env b).2 = true ∧
    ∃ h, h ∈ (tok.index env b).1.objects ∧ h ∈ (tok.index env b).1.allObjects ∧
      h.filename = f ∧ h.valid = false := by
  cases b with
  | true =>
    obtain ⟨h, hh, hfn, hval⟩ :=
      mkHandles_mem env.invalidFiles (newFileSet env.listing) f hf tok.nextPtr
    have hvalf : h.valid = false := by simp [hval, hbad]
    refine ⟨by simp [OSToken.index, hv, hr], h, ?_, ?_, hfn, hvalf⟩
    · simp [OSToken.index, hv, hr]
      exact Or.inr hh
    · simp [OSToken.index, hv, hr]
      exact Or.inr hh
  | false =>
    obtain ⟨hvalid, hw, hnc⟩ := hb rfl
    have hadded : f ∈ (newFileSet env.listing).filter
        (fun n => !(decide (n ∈ tok.currentFiles))) :=
      List.mem_filter.mpr ⟨hf, by simp [hnc]⟩
    obtain ⟨h, hh, hfn, hval⟩ :=
      mkHandles_mem env.invalidFiles _ f hadded tok.nextPtr
    have hvalf : h.valid = false := by simp [hval, hbad]
    refine ⟨by simp [OSToken.index, hvalid, hv, hr, hw], h, ?_, ?_, hfn, hvalf⟩
    · simp [OSToken.index, hvalid, hv, hr, hw]
      exact Or.inr ⟨hh, Or.inr (hfn ▸ hf)⟩
    · simp [OSToken.index, hvalid, hv, hr, hw]
      exact Or.inr hh

/-- A reconciliation environment whose one object file is unreadable. -/
def envBadObject : IndexEnv :=
  { refreshOk := true, listing := ["bad.object"], wasTriggered := true,
    invalidFiles := ["bad.object"] }

/-- Witness for C10 at a concrete unreadable object file. -/
theorem unreadable_object_still_indexed_witness :
    (tokHealthy.index envBadObject true).2 = true ∧
    ∃ h, h ∈ (tokHealthy.index envBadObject true).1.objects ∧
      h ∈ (tokHealthy.index envBadObject true).1.allObjects ∧
      h.filename = "bad.object" ∧ h.valid = false :=
  unreadable_object_still_indexed tokHealthy envBadObject true "bad.object"
    rfl rfl (fun h => nomatch h) (by decide) (by decide)
